import Mathlib

/-!
Verification of the gentup orchestrator (Gentoo updater).

Shallow embedding of the command-output classifiers (`src/portage.rs`), the
process-runner argument handling and failure policy (`src/linux.rs`), and the
orchestrator's post-update cleanup flow (`src/main.rs`).  Rust strings are
modelled as `List Char`; every text primitive used by the source
(`split`, `split_whitespace`, `starts_with`, `contains`, `parse`, `trim`,
numeric-character stripping) is given a structurally recursive Lean
counterpart so that all definitions evaluate inside the kernel.
-/

set_option maxRecDepth 20000

namespace Gentup

/-- Rust `str::split(sep)`: cut a character list at every occurrence of `sep`.
Always returns at least one (possibly empty) chunk, like Rust's `split`. -/
def splitChar (sep : Char) : List Char → List (List Char)
  | [] => [[]]
  | c :: rest =>
    if c = sep then [] :: splitChar sep rest
    else
      match splitChar sep rest with
      | [] => [[c]]
      | g :: gs => (c :: g) :: gs

/-- Helper for `splitWs`; `acc` holds the current word reversed. -/
def splitWsAux : List Char → List Char → List (List Char)
  | [], acc => if acc.isEmpty then [] else [acc.reverse]
  | c :: rest, acc =>
    if c.isWhitespace then
      if acc.isEmpty then splitWsAux rest []
      else acc.reverse :: splitWsAux rest []
    else splitWsAux rest (c :: acc)

/-- Rust `str::split_whitespace`: whitespace-delimited words, empty chunks
skipped. -/
def splitWs (cs : List Char) : List (List Char) :=
  splitWsAux cs []

/-- Rust `str::contains(needle)`: substring test, scanning every start
position. The empty needle matches every haystack. -/
def containsSub (haystack needle : List Char) : Bool :=
  needle.isPrefixOf haystack ||
    match haystack with
    | [] => false
    | _ :: rest => containsSub rest needle

/-- `linux::stripchar`: keep only the numeric characters of a string
(Rust `char::is_numeric`, modelled on decimal digits). -/
def stripchar (cs : List Char) : List Char :=
  cs.filter Char.isDigit

/-- Rust `str::trim`: drop leading and trailing whitespace. -/
def trimChars (cs : List Char) : List Char :=
  ((cs.dropWhile Char.isWhitespace).reverse.dropWhile Char.isWhitespace).reverse

/-- Digits-and-range check shared by the integer parses: `none` when `ds` is
empty, contains a non-digit, or the signed value falls outside
`[-2^31, 2^31 - 1]`. -/
def parseI32Digits (ds : List Char) (sign : Int) : Option Int :=
  if ds.isEmpty then none
  else if ds.all Char.isDigit then
    let n : Nat := ds.foldl (fun acc c => acc * 10 + (c.toNat - 48)) 0
    let v : Int := sign * (n : Int)
    if -(2 ^ 31) ≤ v ∧ v ≤ 2 ^ 31 - 1 then some v else none
  else none

/-- Rust `str::parse::<i32>()`: optional sign followed by decimal digits. -/
def rustParseI32 (cs : List Char) : Option Int :=
  match cs with
  | '+' :: ds => parseI32Digits ds 1
  | '-' :: ds => parseI32Digits ds (-1)
  | ds => parseI32Digits ds 1

/-- Rust `str::parse::<u32>()`: optional `+` followed by decimal digits,
failing on overflow. -/
def rustParseU32 (cs : List Char) : Option Nat :=
  match cs with
  | '+' :: ds =>
    if ds.isEmpty then none
    else if ds.all Char.isDigit then
      let n : Nat := ds.foldl (fun acc c => acc * 10 + (c.toNat - 48)) 0
      if n < 2 ^ 32 then some n else none
    else none
  | ds =>
    if ds.isEmpty then none
    else if ds.all Char.isDigit then
      let n : Nat := ds.foldl (fun acc c => acc * 10 + (c.toNat - 48)) 0
      if n < 2 ^ 32 then some n else none
    else none

/-- Rust `String::contains` on the model's `String` wrappers. -/
def strContains (haystack needle : String) : Bool :=
  containsSub haystack.data needle.data

/-! ### Process runner and failure policy (`src/linux.rs`) -/

/-- `linux::ShellOutResult`: either captured stdout together with the exit
status, or a spawn failure carrying the OS error. -/
inductive ShellOutResult where
  | ok (output : String) (status : Int)
  | err (msg : String)
deriving DecidableEq

/-- Outcome of routing a `ShellOutResult` through the failure policy:
either the whole process exits with the given status, or the result is
handed back to the caller. -/
inductive ExitOrResult where
  | exited (code : Nat)
  | returned (r : ShellOutResult)
deriving DecidableEq

/-- `CouldFail::exit_if_failed` (`src/linux.rs` lines 32-56): a non-zero exit
status or a spawn error prints a diagnostic and terminates the process with
status 1; otherwise the result is returned unchanged. -/
def exit_if_failed (r : ShellOutResult) : ExitOrResult :=
  match r with
  | .ok _ status => if status ≠ 0 then .exited 1 else .returned r
  | .err _ => .exited 1

/-- The whitespace word split `OsCall::execute` performs on its command
line before spawning (`src/linux.rs` lines 61-64). -/
def commandWords (command_line : String) : List (List Char) :=
  splitWs command_line.data

/-- Argument construction of `OsCall::execute` (`src/linux.rs` lines 60-68):
the program name is `command_words[0]` and the rest are arguments. `none`
models the index-out-of-bounds panic when the split produces no words. -/
def execute_spawn (command_line : String) : Option (String × List String) :=
  match commandWords command_line with
  | [] => none
  | w :: ws => some (String.mk w, ws.map String.mk)

/-- Argument construction of `OsCall::piped` (`src/linux.rs` lines 127-150):
both command lines are split the same way, the first being indexed first.
`none` models the panic on an empty word list on either side. -/
def piped_spawn (pipe_from pipe_to : String) :
    Option ((String × List String) × (String × List String)) :=
  match commandWords pipe_from with
  | [] => none
  | w :: ws =>
    match commandWords pipe_to with
    | [] => none
    | w2 :: ws2 =>
      some ((String.mk w, ws.map String.mk), (String.mk w2, ws2.map String.mk))

/-- `linux::running_kernel` (`src/linux.rs` lines 227-233): strip the
non-numeric characters from the captured `uname -r` output, or return the
empty string when the call failed. The argument is the captured stdout when
the `OsCall` returned `Ok`, `none` when it returned `Err`. -/
def running_kernel (unameResult : Option String) : String :=
  match unameResult with
  | some output => String.mk (stripchar output.data)
  | none => ""

/-! ### Output classifiers (`src/portage.rs`) -/

/-- Loop body of `PackageManager::depclean` in `DryRun` mode
(`src/portage.rs` lines 57-96), as a function of the captured dry-run lines.
`kernels` accumulates the stripped text of the last line mentioning a kernel
package. On a line starting with `Number to remove`, the 4th whitespace
word is parsed with `.parse().unwrap()`; `none` models that panic when the
word is present but not a valid `i32`. Falling off the loop yields
`(0, String::new())`. -/
def depcleanScan : List (List Char) → List Char → Option (Int × String)
  | [], _ => some (0, "")
  | line :: rest, kernels =>
    let kernels2 :=
      if containsSub line ("gentoo-kernel".data) || containsSub line ("gentoo-sources".data) then
        stripchar line
      else kernels
    if ("Number to remove".data).isPrefixOf line then
      match (splitWs line)[3]? with
      | some w =>
        match rustParseI32 w with
        | some n => some (n, String.mk kernels2)
        | none => none
      | none => some (0, String.mk kernels2)
    else
      depcleanScan rest kernels2

/-- The orphan classifier: `PackageManager::DryRun.depclean()` applied to the
captured `emerge -p --depclean` output. -/
def depclean_dryrun (output : String) : Option (Int × String) :=
  depcleanScan (splitChar '\n' output.data) []

/-- The kernel-line string the depclean loop has recorded once all lines are
scanned: the stripped text of the last line mentioning a kernel package. -/
def recordedKernels (output : String) : String :=
  String.mk ((splitChar '\n' output.data).foldl
    (fun kernels line =>
      if containsSub line ("gentoo-kernel".data) || containsSub line ("gentoo-sources".data) then
        stripchar line
      else kernels) [])

/-- Token extraction of `get_pending_updates` (`src/portage.rs` lines
166-177): split the line on `]`, call `next()` twice, and take the first
whitespace word of that chunk (empty on `unwrap_or("")`). `none` models the
`None` arm, which breaks out of the scanning loop. -/
def extractToken (line : List Char) : Option String :=
  match (splitChar ']' line)[1]? with
  | some seg => some (String.mk ((splitWs seg).headD []))
  | none => none

/-- Line loop of `get_pending_updates` (`src/portage.rs` lines 164-179):
collect a token from every line starting with `[ebuild`; a marker line
without `]` breaks the loop, keeping the tokens gathered so far. -/
def pendingScan : List (List Char) → List String
  | [] => []
  | line :: rest =>
    if ("[ebuild".data).isPrefixOf line then
      match extractToken line with
      | some t => t :: pendingScan rest
      | none => []
    else pendingScan rest

/-- The pending-update classifier applied to the captured
`emerge -puDv @world` output. -/
def pending_updates_classify (output : String) : List String :=
  pendingScan (splitChar '\n' output.data)

/-- `portage::get_pending_updates` (`src/portage.rs` lines 160-214) as a
function of the dry-run `ShellOutResult`: `true` when the classifier found
at least one pending update, `false` when it found none, and also `false`
when the dry run itself failed to spawn (the `Err` arm prints a diagnostic
and returns `false` instead of exiting). -/
def get_pending_updates (dryrun : ShellOutResult) : Bool :=
  match dryrun with
  | .ok output _ => !(pending_updates_classify output).isEmpty
  | .err _ => false

/-- The reverse-dependency classifier, `PackageManager::DryRun.revdep_rebuild()`
(`src/portage.rs` lines 124-145): `true` exactly when some captured line
starts with the consistency marker. -/
def revdep_rebuild_dryrun (output : String) : Bool :=
  (splitChar '\n' output.data).any
    (fun line => ("Your system is consistent".data).isPrefixOf line)

/-- The news-count classifier inside `portage::check_news` (`src/portage.rs`
line 355): trim the captured count and parse it as a `u32`, defaulting to 0. -/
def check_news_count (output : String) : Nat :=
  (rustParseU32 (trimChars output.data)).getD 0

/-- `portage::too_recent` (`src/portage.rs` lines 218-232) with the two
timestamps it reads made explicit: the current UTC time and the
modification time of the package-tree metadata, both in seconds. -/
def too_recent (nowstamp filestamp : Int) : Bool :=
  decide (nowstamp - filestamp < 24 * 60 * 60)

/-- The sync decision in `main` (`src/main.rs` lines 179-181):
`eix-sync` runs iff `force` is set or the last sync is not too recent. -/
def sync_runs (force : Bool) (nowstamp filestamp : Int) : Bool :=
  force || !(too_recent nowstamp filestamp)

/-! ### Workflow orchestrator (`src/main.rs`) -/

/-- The command-line flags `main` consults (`args::ArgCheck`). -/
structure Arguments where
  background : Bool
  cleanup : Bool
  force : Bool
  trim : Bool
  optional : Bool
deriving DecidableEq

/-- The configuration-file defaults `main` consults (`config::Config`). -/
structure Config where
  cleanup_default : Bool
  trim_default : Bool
  background_default : Bool
deriving DecidableEq

/-- Observable outcome of the cleanup section of `main`
(`src/main.rs` lines 230-274): which depclean variants were invoked,
whether the kernel-preservation message was printed, whether the section
exited the process early, whether the reverse-dependency/cleanup section
ran, and the process exit status. -/
structure CleanupOutcome where
  invokedPreserveKernel : Bool
  invokedAllPackages : Bool
  printedPreserveMsg : Bool
  exitedEarly : Bool
  ranRevdepSection : Bool
  exitCode : Nat
deriving DecidableEq

/-- The cleanup section of `main` (`src/main.rs` lines 230-274), as a
function of the dry-run orphan report `(orphans, kernels)`, the running
kernel identity, and the two cleanup switches. Mirrors the source: when
orphans exist and `kernels` contains the running kernel, the kernel branch
optionally runs `PreserveKernel.depclean`, prints the preservation message
and exits 0; otherwise `AllPackages.depclean` runs only when cleanup was
requested, and control falls through to the reverse-dependency section,
which is itself guarded by the cleanup switches. -/
def cleanupPhase (cleanupArg cleanupDefault : Bool) (orphans : Int)
    (kernels runningKernel : String) : CleanupOutcome :=
  if orphans > 0 then
    if strContains kernels runningKernel then
      { invokedPreserveKernel := cleanupArg || cleanupDefault
        invokedAllPackages := false
        printedPreserveMsg := true
        exitedEarly := true
        ranRevdepSection := false
        exitCode := 0 }
    else
      { invokedPreserveKernel := false
        invokedAllPackages := cleanupArg || cleanupDefault
        printedPreserveMsg := false
        exitedEarly := false
        ranRevdepSection := cleanupArg || cleanupDefault
        exitCode := 0 }
  else
    { invokedPreserveKernel := false
      invokedAllPackages := false
      printedPreserveMsg := false
      exitedEarly := false
      ranRevdepSection := cleanupArg || cleanupDefault
      exitCode := 0 }

/-- Observable outcome of `main` from the pending-update check onward
(`src/main.rs` lines 198-276). -/
structure FlowOutcome where
  ranNewsCheck : Bool
  ranUpgrade : Bool
  ranConfigReconcile : Bool
  ranDepcleanDryRun : Bool
  cleanup : CleanupOutcome
  exitCode : Nat
deriving DecidableEq

/-- `main` from the pending-update check onward (`src/main.rs` lines
198-276): with no pending updates and neither cleanup switch set, the
process exits 0 at once (lines 201-203) and no later step runs; otherwise
the news check, the world update (when updates are pending), the config
reconciliation and the depclean dry run all execute, followed by the
cleanup section. -/
def mainFlow (args : Arguments) (config : Config) (pending : Bool)
    (orphans : Int) (kernels runningKernel : String) : FlowOutcome :=
  if !pending && (!args.cleanup && !config.cleanup_default) then
    { ranNewsCheck := false
      ranUpgrade := false
      ranConfigReconcile := false
      ranDepcleanDryRun := false
      cleanup :=
        { invokedPreserveKernel := false
          invokedAllPackages := false
          printedPreserveMsg := false
          exitedEarly := false
          ranRevdepSection := false
          exitCode := 0 }
      exitCode := 0 }
  else
    let c := cleanupPhase args.cleanup config.cleanup_default orphans kernels runningKernel
    { ranNewsCheck := true
      ranUpgrade := pending
      ranConfigReconcile := true
      ranDepcleanDryRun := true
      cleanup := c
      exitCode := c.exitCode }

/-! ### Definitions needed to state the claims -/

/-- The token the code extracts from a marker line that contains a `]`:
the first whitespace word of the chunk between the first and second `]`
(the chunk `words.next()` yields on its second call). -/
def codeToken (line : List Char) : String :=
  String.mk ((splitWs ((splitChar ']' line)[1]?.getD [])).headD [])

/-- The positional rule as the claim words it: the first whitespace word of
the text after the second `]` of the line. -/
def tokenAfterSecondBracket (line : List Char) : String :=
  String.mk ((splitWs (List.intercalate [']'] ((splitChar ']' line).drop 2))).headD [])

/-- A well-formed upgrade dry-run text: every line starting with the
`[ebuild` marker contains a `]`. -/
def WellFormedUpdateText (output : String) : Prop :=
  ∀ l ∈ splitChar '\n' output.data,
    ("[ebuild".data).isPrefixOf l = true → 2 ≤ (splitChar ']' l).length

instance (output : String) : Decidable (WellFormedUpdateText output) :=
  List.decidableBAll _ _

/-! ### Helper lemmas -/

/-- The empty needle is a substring of every haystack, as with Rust's
`str::contains("")`. -/
theorem containsSub_nil (h : List Char) : containsSub h [] = true := by
  cases h with
  | nil => rfl
  | cons c rest => rfl

/-- A command line made of whitespace splits into no words. -/
theorem splitWsAux_all_ws (cs : List Char)
    (h : ∀ c ∈ cs, c.isWhitespace = true) : splitWsAux cs [] = [] := by
  induction cs with
  | nil => rfl
  | cons c rest ih =>
    have hc : c.isWhitespace = true := h c (by simp)
    simp only [splitWsAux, hc, if_true, List.isEmpty_nil]
    exact ih (fun x hx => h x (by simp [hx]))

/-- The depclean loop falls through to `(0, String::new())` when no line
carries the count marker, whatever kernel lines were recorded. -/
theorem depcleanScan_no_marker (lines : List (List Char)) (kernels : List Char)
    (h : ∀ l ∈ lines, ("Number to remove".data).isPrefixOf l = false) :
    depcleanScan lines kernels = some (0, "") := by
  induction lines generalizing kernels with
  | nil => rfl
  | cons line rest ih =>
    have hline : ("Number to remove".data).isPrefixOf line = false := h line (by simp)
    simp only [depcleanScan, hline, Bool.false_eq_true, if_false]
    exact ih _ (fun l hl => h l (by simp [hl]))

/-- On a text whose marker lines all contain a `]`, the pending-update scan
is the token extraction mapped over exactly the marker lines, in order. -/
theorem pendingScan_eq_map (lines : List (List Char))
    (h : ∀ l ∈ lines, ("[ebuild".data).isPrefixOf l = true → 2 ≤ (splitChar ']' l).length) :
    pendingScan lines
      = (lines.filter (fun l => ("[ebuild".data).isPrefixOf l)).map codeToken := by
  induction lines with
  | nil => rfl
  | cons line rest ih =>
    have ihr := ih (fun l hl hp => h l (by simp [hl]) hp)
    by_cases hmark : ("[ebuild".data).isPrefixOf line = true
    · have hlen : 2 ≤ (splitChar ']' line).length := h line (by simp) hmark
      obtain ⟨seg, hseg⟩ : ∃ seg, (splitChar ']' line)[1]? = some seg := by
        cases hg : (splitChar ']' line)[1]? with
        | some s => exact ⟨s, rfl⟩
        | none =>
          rw [List.getElem?_eq_none_iff] at hg
          omega
      simp [pendingScan, extractToken, hmark, hseg, codeToken, ihr]
    · have hmark' : ("[ebuild".data).isPrefixOf line = false :=
        Bool.eq_false_iff.mpr hmark
      simp [pendingScan, hmark', ihr]

/-! ### Claims -/

/-- C1: for every dry-run orphan report `(orphans, kernels)` with
`orphans > 0`, if `kernels` contains the running-kernel identity then the
orchestrator never invokes `PackageManager::AllPackages.depclean`; it
invokes `PackageManager::PreserveKernel.depclean` exactly when cleanup was
requested, prints the kernel-preservation message, and exits with status 0
without executing the reverse-dependency or later cleanup steps. -/
theorem c1_kernel_preservation (cleanupArg cleanupDefault : Bool)
    (orphans : Int) (kernels runningKernel : String)
    (horph : orphans > 0)
    (hker : strContains kernels runningKernel = true) :
    (cleanupPhase cleanupArg cleanupDefault orphans kernels runningKernel).invokedAllPackages
        = false ∧
    (cleanupPhase cleanupArg cleanupDefault orphans kernels runningKernel).invokedPreserveKernel
        = (cleanupArg || cleanupDefault) ∧
    (cleanupPhase cleanupArg cleanupDefault orphans kernels runningKernel).printedPreserveMsg
        = true ∧
    (cleanupPhase cleanupArg cleanupDefault orphans kernels runningKernel).exitedEarly = true ∧
    (cleanupPhase cleanupArg cleanupDefault orphans kernels runningKernel).exitCode = 0 ∧
    (cleanupPhase cleanupArg cleanupDefault orphans kernels runningKernel).ranRevdepSection
        = false := by
  simp [cleanupPhase, horph, hker]

/-- C1 witness: a concrete report with 3 orphans whose kernel line matches
the running kernel, with cleanup requested. -/
theorem c1_kernel_preservation_witness :
    (cleanupPhase true false 3 "61" "61").invokedAllPackages = false ∧
    (cleanupPhase true false 3 "61" "61").invokedPreserveKernel = (true || false) ∧
    (cleanupPhase true false 3 "61" "61").printedPreserveMsg = true ∧
    (cleanupPhase true false 3 "61" "61").exitedEarly = true ∧
    (cleanupPhase true false 3 "61" "61").exitCode = 0 ∧
    (cleanupPhase true false 3 "61" "61").ranRevdepSection = false :=
  c1_kernel_preservation true false 3 "61" "61" (by decide) (by decide)

/-- C2: the orphan classifier does NOT survive a count-marker line whose 4th
whitespace word is unparseable: `word.parse().unwrap()` in
`PackageManager::depclean` (`src/portage.rs` line 70) panics there, modelled
as `none`, contradicting the never-panic edge-case policy. -/
theorem c2_depclean_panics_on_bad_count :
    depclean_dryrun "Number to remove four packages" = none := by rfl

/-- C3 (amended): every `ShellOutResult` routed through `exit_if_failed`
terminates the program with status 1 on a spawn `Err` or a non-zero exit
code, and is returned unchanged otherwise. (The further claim that every
workflow step behaves this way fails: see the counterexample.) -/
theorem c3_exit_if_failed_policy (r : ShellOutResult) :
    (∀ e, r = ShellOutResult.err e → exit_if_failed r = ExitOrResult.exited 1) ∧
    (∀ out status, r = ShellOutResult.ok out status → status ≠ 0 →
        exit_if_failed r = ExitOrResult.exited 1) ∧
    (∀ out, r = ShellOutResult.ok out 0 → exit_if_failed r = ExitOrResult.returned r) := by
  refine ⟨?_, ?_, ?_⟩
  · rintro e rfl
    rfl
  · rintro out status rfl hs
    simp [exit_if_failed, hs]
  · rintro out rfl
    rfl

/-- C3 witness: a zero-status result passes through unchanged. -/
theorem c3_exit_if_failed_policy_witness :
    exit_if_failed (ShellOutResult.ok "output" 0)
      = ExitOrResult.returned (ShellOutResult.ok "output" 0) :=
  (c3_exit_if_failed_policy (ShellOutResult.ok "output" 0)).2.2 "output" rfl

/-- C3 counterexample: a spawn error at the pending-update step does not
terminate the program with status 1 — `get_pending_updates` swallows the
`Err`, returns `false`, and (with cleanup unset) the program then exits 0. -/
theorem c3_spawn_error_not_fatal :
    get_pending_updates (ShellOutResult.err "No such file or directory") = false ∧
    (mainFlow ⟨false, false, false, false, false⟩ ⟨false, false, false⟩
        false 0 "" "").exitCode = 0 ∧
    (0 : Nat) ≠ 1 := by
  refine ⟨rfl, rfl, by decide⟩

/-- C4: when the pending-update detection yields no updates and the force
and cleanup switches are all unset, the program exits 0 immediately,
invoking no later workflow step. -/
theorem c4_nothing_to_do (args : Arguments) (config : Config) (pending : Bool)
    (orphans : Int) (kernels runningKernel : String)
    (hpending : pending = false)
    (_hforce : args.force = false)
    (hcarg : args.cleanup = false)
    (hcdef : config.cleanup_default = false) :
    mainFlow args config pending orphans kernels runningKernel =
      { ranNewsCheck := false
        ranUpgrade := false
        ranConfigReconcile := false
        ranDepcleanDryRun := false
        cleanup :=
          { invokedPreserveKernel := false
            invokedAllPackages := false
            printedPreserveMsg := false
            exitedEarly := false
            ranRevdepSection := false
            exitCode := 0 }
        exitCode := 0 } := by
  subst hpending
  simp [mainFlow, hcarg, hcdef]

/-- C4 witness: concrete flags, no pending updates. -/
theorem c4_nothing_to_do_witness :
    mainFlow ⟨false, false, false, false, false⟩ ⟨false, false, false⟩ false 5 "61" "61" =
      { ranNewsCheck := false
        ranUpgrade := false
        ranConfigReconcile := false
        ranDepcleanDryRun := false
        cleanup :=
          { invokedPreserveKernel := false
            invokedAllPackages := false
            printedPreserveMsg := false
            exitedEarly := false
            ranRevdepSection := false
            exitCode := 0 }
        exitCode := 0 } :=
  c4_nothing_to_do ⟨false, false, false, false, false⟩ ⟨false, false, false⟩
    false 5 "61" "61" rfl rfl rfl rfl

/-- C5 (amended): on every well-formed dry-run text the pending-update
classifier returns exactly the token of each `[ebuild` marker line (the
first whitespace word after the FIRST `]`, empty when absent), in the
original line order — hence exactly N tokens for N marker lines — and when
there is no marker line, `get_pending_updates` reports no pending updates. -/
theorem c5_pending_classifier (output : String) (h : WellFormedUpdateText output) :
    pending_updates_classify output
      = ((splitChar '\n' output.data).filter
          (fun l => ("[ebuild".data).isPrefixOf l)).map codeToken ∧
    (pending_updates_classify output).length
      = ((splitChar '\n' output.data).filter
          (fun l => ("[ebuild".data).isPrefixOf l)).length ∧
    (((splitChar '\n' output.data).filter
        (fun l => ("[ebuild".data).isPrefixOf l)).length = 0 →
      get_pending_updates (ShellOutResult.ok output 0) = false) := by
  have hmap := pendingScan_eq_map (splitChar '\n' output.data) h
  refine ⟨hmap, ?_, ?_⟩
  · rw [pending_updates_classify, hmap, List.length_map]
  · intro hlen
    have hnil : ((splitChar '\n' output.data).filter
        (fun l => ("[ebuild".data).isPrefixOf l)) = [] := List.length_eq_zero.mp hlen
    have : pending_updates_classify output = [] := by
      rw [pending_updates_classify, hmap, hnil]
      rfl
    simp [get_pending_updates, this]

/-- C5 witness: a two-line well-formed text with one marker line. -/
theorem c5_pending_classifier_witness :
    pending_updates_classify "[ebuild R ] cat/pkg-1.0\nother line"
      = ((splitChar '\n' ("[ebuild R ] cat/pkg-1.0\nother line").data).filter
          (fun l => ("[ebuild".data).isPrefixOf l)).map codeToken :=
  (c5_pending_classifier "[ebuild R ] cat/pkg-1.0\nother line" (by decide)).1

/-- C5 counterexample: on a realistic well-formed marker line carrying a
second `]` (the old-version bracket), the code extracts the token after the
FIRST `]`, not the token after the second `]` as the claim states. -/
theorem c5_second_bracket_counterexample :
    WellFormedUpdateText "[ebuild     U  ] sys-devel/gcc-13.2.1 [13.2.0]" ∧
    pending_updates_classify "[ebuild     U  ] sys-devel/gcc-13.2.1 [13.2.0]"
      = ["sys-devel/gcc-13.2.1"] ∧
    tokenAfterSecondBracket ("[ebuild     U  ] sys-devel/gcc-13.2.1 [13.2.0]").data = "" ∧
    ("sys-devel/gcc-13.2.1" : String) ≠ "" := by
  refine ⟨by decide, by rfl, by rfl, by decide⟩

/-- C6: with force unset the sync is skipped exactly when the metadata
timestamp is strictly less than 24 hours (86400 s) older than now; in
particular it is skipped at an age of 23h59m (86340 s) and executed at
24h01m (86460 s); with force set it always runs. -/
theorem c6_conditional_sync (force : Bool) (nowstamp filestamp : Int)
    (hf : force = false) :
    (sync_runs force nowstamp filestamp = false ↔ nowstamp - filestamp < 86400) ∧
    sync_runs force nowstamp (nowstamp - 86340) = false ∧
    sync_runs force nowstamp (nowstamp - 86460) = true ∧
    sync_runs true nowstamp filestamp = true := by
  subst hf
  refine ⟨?_, ?_, ?_, rfl⟩
  · simp [sync_runs, too_recent]
  · simp [sync_runs, too_recent]
  · simp [sync_runs, too_recent]

/-- C6 witness: concrete timestamps an hour under and over the threshold. -/
theorem c6_conditional_sync_witness :
    (sync_runs false 1000000 900000 = false ↔ (1000000 : Int) - 900000 < 86400) ∧
    sync_runs false 1000000 (1000000 - 86340) = false ∧
    sync_runs false 1000000 (1000000 - 86460) = true ∧
    sync_runs true 1000000 900000 = true :=
  c6_conditional_sync false 1000000 900000 rfl

/-- C7 (amended): on every depclean dry-run text with no `Number to remove`
line, the orphan classifier returns zero orphans with the EMPTY kernel
string — the recorded kernel line is discarded — and neither errors nor
panics. -/
theorem c7_no_marker_zero (output : String)
    (h : ∀ l ∈ splitChar '\n' output.data,
        ("Number to remove".data).isPrefixOf l = false) :
    depclean_dryrun output = some (0, "") :=
  depcleanScan_no_marker _ _ h

/-- C7 witness: a marker-free text containing a kernel line. -/
theorem c7_no_marker_zero_witness :
    depclean_dryrun "some gentoo-sources-5.15 line\nno marker here" = some (0, "") :=
  c7_no_marker_zero "some gentoo-sources-5.15 line\nno marker here" (by decide)

/-- C7 counterexample: with a kernel line recorded and no count marker, the
code returns the EMPTY kernel string, not the recorded one, so the claim's
"together with whatever kernel-line string was recorded" fails. -/
theorem c7_kernels_discarded_counterexample :
    depclean_dryrun "foo gentoo-kernel-6.1\nbar" = some (0, "") ∧
    recordedKernels "foo gentoo-kernel-6.1\nbar" = "61" ∧
    depclean_dryrun "foo gentoo-kernel-6.1\nbar"
      ≠ some (0, recordedKernels "foo gentoo-kernel-6.1\nbar") := by
  refine ⟨by rfl, by rfl, by decide⟩

/-- C8: the reverse-dependency classifier returns `true` exactly when some
line of the whole captured text starts with the consistency marker, and is
a pure function, returning the same boolean when run twice. -/
theorem c8_revdep_classifier (output : String) :
    (revdep_rebuild_dryrun output = true ↔
      ∃ l ∈ splitChar '\n' output.data,
        ("Your system is consistent".data).isPrefixOf l = true) ∧
    revdep_rebuild_dryrun output = revdep_rebuild_dryrun output := by
  refine ⟨?_, rfl⟩
  simp [revdep_rebuild_dryrun, List.any_eq_true]

/-- C9: `running_kernel` yields the empty string when the uname query
fails; the empty string is contained in every kernels string, so with
orphans present the orchestrator always takes the kernel-preservation
branch and never invokes the unrestricted depclean. -/
theorem c9_unknown_kernel_failsafe (orphans : Int) (kernels : String)
    (cleanupArg cleanupDefault : Bool) (horph : orphans > 0) :
    running_kernel none = "" ∧
    strContains kernels (running_kernel none) = true ∧
    (cleanupPhase cleanupArg cleanupDefault orphans kernels (running_kernel none)).invokedAllPackages
        = false ∧
    (cleanupPhase cleanupArg cleanupDefault orphans kernels (running_kernel none)).printedPreserveMsg
        = true ∧
    (cleanupPhase cleanupArg cleanupDefault orphans kernels (running_kernel none)).exitedEarly
        = true := by
  have hrk : running_kernel none = "" := rfl
  have hcont : strContains kernels (running_kernel none) = true := by
    rw [hrk]
    exact containsSub_nil kernels.data
  refine ⟨hrk, hcont, ?_, ?_, ?_⟩ <;> simp [cleanupPhase, horph, hcont]

/-- C9 witness: two orphans, an arbitrary kernels string, cleanup unset. -/
theorem c9_unknown_kernel_failsafe_witness :
    running_kernel none = "" ∧
    strContains "sys-kernel" (running_kernel none) = true ∧
    (cleanupPhase false false 2 "sys-kernel" (running_kernel none)).invokedAllPackages = false ∧
    (cleanupPhase false false 2 "sys-kernel" (running_kernel none)).printedPreserveMsg = true ∧
    (cleanupPhase false false 2 "sys-kernel" (running_kernel none)).exitedEarly = true :=
  c9_unknown_kernel_failsafe 2 "sys-kernel" false false (by decide)

/-- C10: a command line with no non-whitespace characters makes
`OsCall::execute` panic on the out-of-bounds index `command_words[0]`
instead of returning `Err`, and likewise either argument of
`OsCall::piped`. -/
theorem c10_blank_command_panics (command_line other : String)
    (h : ∀ c ∈ command_line.data, c.isWhitespace = true) :
    execute_spawn command_line = none ∧
    piped_spawn command_line other = none ∧
    piped_spawn other command_line = none := by
  have hw : commandWords command_line = [] := splitWsAux_all_ws _ h
  refine ⟨?_, ?_, ?_⟩
  · simp [execute_spawn, hw]
  · simp [piped_spawn, hw]
  · cases hcw : commandWords other with
    | nil => simp [piped_spawn, hcw]
    | cons w ws => simp [piped_spawn, hcw, hw]

/-- C10 witness: an all-whitespace command line on both sides of a pipe. -/
theorem c10_blank_command_panics_witness :
    execute_spawn "  " = none ∧
    piped_spawn "  " "eselect news count" = none ∧
    piped_spawn "eselect news count" "  " = none :=
  c10_blank_command_panics "  " "eselect news count" (by decide)

end Gentup
